import Mathlib

/-!
Verification of the customer-experience-management control plane against its
natural-language specification.  Each section embeds one part of the Python
source shallowly in Lean (pure state-passing functions over explicit store
states) and proves or refutes the corresponding spec claims.
-/

/-!
## Binding-SID pool
Embeds `src/agents/tunnel_provisioning/tools/bsid_allocator.py` (class
`BSIDAllocator`) for a single head-end.  The Redis keys `bsid:mpls:{head}`
(next-free counter, absent initially) and `bsid:free:{head}` (set of released
values) become the two fields of `Pool`.  The Redis set is modelled as a
duplicate-free list in insertion order; `SPOP` takes the first element and
`SADD` appends when the member is absent.
-/

def SR_MPLS_BSID_RANGE_LO : Nat := 24000

def SR_MPLS_BSID_RANGE_HI : Nat := 24999

structure Pool where
  counter : Option Nat
  free : List Nat
deriving Repr, DecidableEq

/-- `BSIDAllocator.allocate_mpls_bsid`: drain the free set first, else advance
the counter; raise once the counter would pass the top of the range. -/
def allocate_mpls_bsid (p : Pool) : Except String (Nat × Pool) :=
  match p.free with
  | free_bsid :: rest => Except.ok (free_bsid, { p with free := rest })
  | [] =>
    let current := p.counter.getD (SR_MPLS_BSID_RANGE_LO - 1)
    let next_bsid := current + 1
    if SR_MPLS_BSID_RANGE_HI < next_bsid then
      Except.error "No more BSIDs available"
    else
      Except.ok (next_bsid, { p with counter := some next_bsid })

/-- `BSIDAllocator.release_bsid`: `SADD` of the value onto `bsid:free:{head}`.
(Never called from anywhere in the repository.) -/
def release_bsid (p : Pool) (bsid : Nat) : Pool :=
  { p with free := if bsid ∈ p.free then p.free else p.free ++ [bsid] }

/-!
## Tunnel-provisioning build node
Embeds the BSID-allocation part of `build_payload_node`
(`src/agents/tunnel_provisioning/nodes/build_node.py`): for `sr-mpls` and
`srv6` the MPLS allocator is called; when the allocator raises, the node
catches the exception and uses the hard-coded default `binding_sid = 24001`,
leaving the pool state untouched.
-/

def build_binding_sid (te_type : String) (p : Pool) : Option Nat × Pool :=
  if te_type = "sr-mpls" ∨ te_type = "srv6" then
    match allocate_mpls_bsid p with
    | Except.ok (b, p2) => (some b, p2)
    | Except.error _ => (some 24001, p)
  else
    (none, p)

/-- Head-end view of the provisioner: the pool plus the binding SIDs of the
tunnels currently alive at this head-end.  A successful build followed by
tunnel creation (`create_tunnel_node`) makes the returned binding SID live. -/
structure TpSystem where
  pool : Pool
  live : List Nat
deriving Repr, DecidableEq

def provision_build (te_type : String) (s : TpSystem) : Option Nat × TpSystem :=
  match build_binding_sid te_type s.pool with
  | (some b, p2) => (some b, { pool := p2, live := s.live ++ [b] })
  | (none, p2) => (none, { s with pool := p2 })

/-- Pool state of claim C1's failing input: the counter has reached the top of
the range with no released values, and one live tunnel already holds 24001. -/
def c1_exhausted : TpSystem :=
  { pool := { counter := some 24999, free := [] }, live := [24001] }

/-!
## Restoration-side tunnel deletion
Embeds `src/agents/restoration_monitor/tools/tunnel_deleter.py`
(`TunnelDeleter.delete_tunnel`, success path, and `_release_bsid`).  The
deleter looks up the tunnel's BSID, deletes the tunnel, then calls
`_release_bsid`, which performs `SREM "bsid:allocated" bsid` — a global key
that no other code in the repository reads or writes.  It never touches the
allocator's `bsid:free:{head_end}` key.
-/

structure BsidStore where
  pool : Pool
  allocatedKey : List Nat
deriving Repr, DecidableEq

/-- `TunnelDeleter._release_bsid`: remove the value from the set stored at the
global key `bsid:allocated`. -/
def deleter_release_bsid (s : BsidStore) (bsid : Nat) : BsidStore :=
  { s with allocatedKey := s.allocatedKey.erase bsid }

/-- `TunnelDeleter.delete_tunnel`, success path: the CNC lookup returned the
tunnel's BSID, the CNC delete succeeded, and the BSID is then "released" via
`_release_bsid`.  The per-head-end pool is untouched. -/
def delete_tunnel (s : BsidStore) (bsid_released : Nat) : BsidStore :=
  deleter_release_bsid s bsid_released

/-- C1: after a pool-allocation error, `build_payload_node` falls back to the
constant 24001; with the pool exhausted and a live tunnel already holding
24001, the build hands out a binding SID that a second live tunnel then also
holds, violating the uniqueness invariant the claim states. -/
theorem c1_fallback_breaks_bsid_uniqueness :
    (provision_build "sr-mpls" c1_exhausted).1 = some 24001 ∧
    24001 ∈ c1_exhausted.live ∧
    ¬ (provision_build "sr-mpls" c1_exhausted).2.live.Nodup := by
  decide

/-- C2: allocate 24000 at a fresh head-end, delete the tunnel holding it via
`TunnelDeleter`, then allocate again: the free set is still empty, the freed
value 24000 is not returned to `bsid:free:{head}` (the deleter only edits the
unused global `bsid:allocated` key), and the next allocation yields 24001,
not 24000 as the claim requires. -/
theorem c2_delete_does_not_return_bsid_to_free_set :
    (allocate_mpls_bsid { counter := none, free := [] }).toOption.map Prod.fst
      = some 24000 ∧
    (delete_tunnel
        { pool := { counter := some 24000, free := [] }, allocatedKey := [] }
        24000).pool.free = [] ∧
    (allocate_mpls_bsid
        (delete_tunnel
          { pool := { counter := some 24000, free := [] }, allocatedKey := [] }
          24000).pool).toOption.map Prod.fst = some 24001 ∧
    (24001 : Nat) ≠ 24000 := by
  decide

/-- C3: calling the build step of `provision_tunnel` twice with identical
inputs, starting from a fresh pool, allocates 24000 and then 24001: the second
call is not a no-op and does not reuse the previously allocated BSID, so the
two calls return different binding SIDs. -/
theorem c3_second_call_allocates_fresh_bsid :
    (build_binding_sid "sr-mpls" { counter := none, free := [] }).1
      = some 24000 ∧
    (build_binding_sid "sr-mpls"
        (build_binding_sid "sr-mpls" { counter := none, free := [] }).2).1
      = some 24001 ∧
    (build_binding_sid "sr-mpls"
        (build_binding_sid "sr-mpls" { counter := none, free := [] }).2).1
      ≠ (build_binding_sid "sr-mpls" { counter := none, free := [] }).1 := by
  decide

/-!
## Gradual cutover
Embeds `GradualCutover.execute_gradual_cutover`
(`src/agents/restoration_monitor/tools/cutover.py`).  `STAGES` is the class
constant.  In the source `update_weights` returns success on every path (its
HTTP-error handler simulates success), so the `not result.success` early
return is unreachable and is dropped from the model.  The loop commits each
stage's weight pair, and between stages (not after the final one) sleeps and
calls the SLA verifier; on a failed verification it re-commits the previous
stage's pair when one exists and returns failure.  `slaOk i` is the verifier
outcome after stage index `i`; the returned list holds every weight pair
passed to `update_weights`, in order, including a rollback pair.
-/

def STAGES : List (Nat × Nat) := [(75, 25), (50, 50), (25, 75), (0, 100)]

def runStages (slaOk : Nat → Bool) :
    Nat → Option (Nat × Nat) → List (Nat × Nat) → Bool × List (Nat × Nat)
  | _, _, [] => (true, [])
  | _, _, [w] => (true, [w])
  | idx, prev, w :: w2 :: rest =>
    if slaOk idx then
      let r := runStages slaOk (idx + 1) (some w) (w2 :: rest)
      (r.1, w :: r.2)
    else
      match prev with
      | some pw => (false, [w, pw])
      | none => (false, [w])

def execute_gradual_cutover (slaOk : Nat → Bool) : Bool × List (Nat × Nat) :=
  runStages slaOk 0 none STAGES

/-- Closed-form evaluation of the cutover run as a function of the three
inter-stage SLA verifications. -/
theorem cutover_eval (slaOk : Nat → Bool) :
    execute_gradual_cutover slaOk =
      if slaOk 0 then
        if slaOk 1 then
          if slaOk 2 then (true, [(75, 25), (50, 50), (25, 75), (0, 100)])
          else (false, [(75, 25), (50, 50), (25, 75), (50, 50)])
        else (false, [(75, 25), (50, 50), (75, 25)])
      else (false, [(75, 25)]) := by
  rcases h0 : slaOk 0 <;> rcases h1 : slaOk 1 <;> rcases h2 : slaOk 2 <;>
    simp [execute_gradual_cutover, STAGES, runStages, h0, h1, h2]

/-- C4: every weight pair the gradual cutover emits sums to 100; a successful
run emits exactly the stage sequence, monotonically non-increasing in
protection weight and ending at (0, 100); and when the first failed SLA
verification happens after stage `i`, the run is not successful and (when a
previous stage exists) the last emitted pair is that previous stage's pair. -/
theorem c4_gradual_cutover_weights (slaOk : Nat → Bool) :
    (∀ w ∈ (execute_gradual_cutover slaOk).2, w.1 + w.2 = 100) ∧
    ((execute_gradual_cutover slaOk).1 = true →
      (execute_gradual_cutover slaOk).2 = STAGES ∧
      List.Chain' (fun a b : Nat × Nat => b.1 ≤ a.1)
        (execute_gradual_cutover slaOk).2 ∧
      (execute_gradual_cutover slaOk).2.getLast? = some (0, 100)) ∧
    (∀ i : Nat, i < 3 → slaOk i = false → (∀ j, j < i → slaOk j = true) →
      (execute_gradual_cutover slaOk).1 = false ∧
      (1 ≤ i →
        (execute_gradual_cutover slaOk).2.getLast? = STAGES.get? (i - 1))) := by
  have hev := cutover_eval slaOk
  refine ⟨?_, ?_, ?_⟩
  · rcases h0 : slaOk 0 <;> rcases h1 : slaOk 1 <;> rcases h2 : slaOk 2 <;>
      simp [h0, h1, h2] at hev <;> rw [hev] <;> decide
  · intro hs
    rcases h0 : slaOk 0 <;> rcases h1 : slaOk 1 <;> rcases h2 : slaOk 2 <;>
      simp [h0, h1, h2] at hev <;> rw [hev] at hs ⊢ <;> simp at hs <;>
      exact ⟨rfl, by norm_num [List.chain'_cons], by decide⟩
  · intro i hi hfail hbefore
    have hsplit : i = 0 ∨ (i = 1 ∧ slaOk 0 = true) ∨
        (i = 2 ∧ slaOk 0 = true ∧ slaOk 1 = true) := by
      interval_cases i
      · exact Or.inl rfl
      · exact Or.inr (Or.inl ⟨rfl, hbefore 0 (by omega)⟩)
      · exact Or.inr (Or.inr ⟨rfl, hbefore 0 (by omega), hbefore 1 (by omega)⟩)
    rcases hsplit with h | ⟨h, ha⟩ | ⟨h, ha, hb⟩ <;> subst h
    · simp [hfail] at hev
      rw [hev]
      exact ⟨rfl, fun hle => absurd hle (by omega)⟩
    · simp [ha, hfail] at hev
      rw [hev]
      exact ⟨rfl, fun _ => by decide⟩
    · simp [ha, hb, hfail] at hev
      rw [hev]
      exact ⟨rfl, fun _ => by decide⟩

/-- Witness for C4 at a concrete verifier: SLA regresses after stage index 1,
so the run fails and rolls back to stage 0's pair (75, 25). -/
theorem c4_gradual_cutover_weights_witness :
    (execute_gradual_cutover (fun i => decide (i = 0))).1 = false ∧
    (execute_gradual_cutover (fun i => decide (i = 0))).2.getLast?
      = some (75, 25) := by
  have h := (c4_gradual_cutover_weights (fun i => decide (i = 0))).2.2 1
    (by omega) (by decide)
    (fun j hj => by
      have hj0 : j = 0 := by omega
      simp [hj0])
  exact ⟨h.1, by simpa [STAGES] using h.2 (by omega)⟩

/-!
## Path-computation constraints
Embeds `src/agents/path_computation/tools/constraint_builder.py`
(`ConstraintBuilder.build_constraints` / `relax_constraints` /
`can_relax_further` with the singleton's default configuration) and
`src/agents/path_computation/nodes/relax_node.py` (`relax_constraints_node`),
which feeds the previously relaxed constraints back into the builder at each
new level.  SLA metric values are naturals; a Python falsy check on an
optional number is `Option` membership with a non-zero value.
-/

def DEFAULT_MAX_HOPS : Nat := 10

def DEFAULT_METRIC : String := "delay"

def HOP_INCREASE_PER_LEVEL : Nat := 5

def MAX_RELAXATION_LEVELS : Nat := 4

structure PathConstraints where
  avoid_links : List String
  avoid_nodes : List String
  avoid_srlgs : List String
  optimization_metric : String
  max_hops : Nat
  max_delay_ms : Option Nat
  min_bandwidth_gbps : Option Nat
  disjoint_from_path : Option String
  disjointness_type : Option String
deriving Repr, DecidableEq

structure RequiredSla where
  max_delay_ms : Option Nat
  min_bandwidth_gbps : Option Nat
deriving Repr, DecidableEq

/-- Python truthiness of an optional numeric payload field. -/
def truthyNat : Option Nat → Bool
  | some v => v ≠ 0
  | none => false

def build_constraints (degraded_links avoid_nodes avoid_srlgs : List String)
    (existing_policies : List String) (required_sla : Option RequiredSla)
    (te_type : Option String) : PathConstraints :=
  let metric :=
    if te_type = some "rsvp-te" then "te"
    else if truthyNat (required_sla.bind RequiredSla.max_delay_ms) then "delay"
    else DEFAULT_METRIC
  { avoid_links := degraded_links
    avoid_nodes := avoid_nodes
    avoid_srlgs := avoid_srlgs
    optimization_metric := metric
    max_hops := DEFAULT_MAX_HOPS
    max_delay_ms := required_sla.bind RequiredSla.max_delay_ms
    min_bandwidth_gbps := required_sla.bind RequiredSla.min_bandwidth_gbps
    disjoint_from_path := existing_policies.head?
    disjointness_type :=
      if existing_policies.isEmpty then none else some "link" }

def relax_constraints (c : PathConstraints) (level : Nat) : PathConstraints :=
  if MAX_RELAXATION_LEVELS < level then c
  else
    let r1 := if 1 ≤ level then { c with avoid_srlgs := [] } else c
    let r2 :=
      if 2 ≤ level then
        { r1 with max_hops := c.max_hops + HOP_INCREASE_PER_LEVEL }
      else r1
    let r3 :=
      if 3 ≤ level then
        { r2 with optimization_metric := "igp", max_delay_ms := none }
      else r2
    if 4 ≤ level then { r3 with avoid_nodes := [] } else r3

def can_relax_further (level : Nat) : Bool :=
  level < MAX_RELAXATION_LEVELS

/-- `relax_constraints_node`: bump the level, and only relax while
`can_relax_further` held at the previous level. -/
def relax_constraints_node (c : PathConstraints) (current_level : Nat) :
    PathConstraints × Nat :=
  let new_level := current_level + 1
  if ¬ can_relax_further current_level = true then (c, new_level)
  else (relax_constraints c new_level, new_level)

/-- The relax node iterated from the initially built constraints, as the
QUERY → VALIDATE → RELAX loop replays it. -/
def iterRelax (c0 : PathConstraints) : Nat → PathConstraints × Nat
  | 0 => (c0, 0)
  | n + 1 => relax_constraints_node (iterRelax c0 n).1 (iterRelax c0 n).2

theorem iterRelax_level (c0 : PathConstraints) (n : Nat) :
    (iterRelax c0 n).2 = n := by
  induction n with
  | zero => rfl
  | succ n ih =>
    simp only [iterRelax, relax_constraints_node]
    split <;> simp [ih]

/-- Default initial constraints of the counterexample run: one degraded link,
one SRLG to avoid, no SLA, no existing policy. -/
def c5_init : PathConstraints :=
  build_constraints ["link-L"] [] ["srlg-1"] [] none none

/-- C5 counterexample: at relaxation level 3 the iterated relax loop reports
max_hops = 20, not the claimed initial bound plus five (15): the +5 raise is
re-applied to the already-raised bound at every level from 2 on. -/
theorem c5_counterexample_max_hops_compounds :
    (iterRelax c5_init 3).1.max_hops = 20 ∧
    ¬ (iterRelax c5_init 3).1.max_hops = DEFAULT_MAX_HOPS + 5 := by
  decide

/-- C5 amended: for the iterated relaxation at level L (1 ≤ L ≤ 4),
avoid_links stays exactly the degraded-links list, avoid_srlgs is cleared from
level 1, max_hops is 10 at level 1 and 10 + 5·(L−1) from level 2 on
(compounding, not a one-shot +5), the metric is igp with the max-delay bound
dropped from level 3, avoid_nodes is cleared exactly at level 4, and a step
taken past level 4 leaves the constraints unchanged. -/
theorem c5_relaxation_levels (degraded nodes srlgs pols : List String)
    (sla : Option RequiredSla) (te : Option String) (L : Nat)
    (h1 : 1 ≤ L) (h4 : L ≤ 4) :
    ((iterRelax (build_constraints degraded nodes srlgs pols sla te) L).1.avoid_links
        = degraded) ∧
    ((iterRelax (build_constraints degraded nodes srlgs pols sla te) L).1.avoid_srlgs
        = []) ∧
    ((iterRelax (build_constraints degraded nodes srlgs pols sla te) L).1.max_hops
        = if L = 1 then DEFAULT_MAX_HOPS
          else DEFAULT_MAX_HOPS + HOP_INCREASE_PER_LEVEL * (L - 1)) ∧
    (3 ≤ L →
      (iterRelax (build_constraints degraded nodes srlgs pols sla te) L).1.optimization_metric
          = "igp" ∧
      (iterRelax (build_constraints degraded nodes srlgs pols sla te) L).1.max_delay_ms
          = none) ∧
    (L < 3 →
      (iterRelax (build_constraints degraded nodes srlgs pols sla te) L).1.optimization_metric
          = (build_constraints degraded nodes srlgs pols sla te).optimization_metric ∧
      (iterRelax (build_constraints degraded nodes srlgs pols sla te) L).1.max_delay_ms
          = (build_constraints degraded nodes srlgs pols sla te).max_delay_ms) ∧
    ((iterRelax (build_constraints degraded nodes srlgs pols sla te) L).1.avoid_nodes
        = if L = 4 then [] else nodes) ∧
    ((iterRelax (build_constraints degraded nodes srlgs pols sla te) (L + 1)).1
        = if L = 4 then
            (iterRelax (build_constraints degraded nodes srlgs pols sla te) L).1
          else
            relax_constraints
              (iterRelax (build_constraints degraded nodes srlgs pols sla te) L).1
              (L + 1)) := by
  interval_cases L <;>
    simp [iterRelax, relax_constraints_node, relax_constraints,
      can_relax_further, build_constraints, MAX_RELAXATION_LEVELS,
      DEFAULT_MAX_HOPS, HOP_INCREASE_PER_LEVEL]

/-- Witness for C5 amended at level 3 on concrete inputs. -/
theorem c5_relaxation_levels_witness :
    (iterRelax (build_constraints ["l1"] ["n1"] ["s1"] [] none none) 3).1.avoid_links
        = ["l1"] ∧
    (iterRelax (build_constraints ["l1"] ["n1"] ["s1"] [] none none) 3).1.max_hops
        = 20 ∧
    (iterRelax (build_constraints ["l1"] ["n1"] ["s1"] [] none none) 3).1.optimization_metric
        = "igp" := by
  obtain ⟨hl, -, hh, hm, -, -, -⟩ :=
    c5_relaxation_levels ["l1"] ["n1"] ["s1"] [] none none 3
      (by omega) (by omega)
  exact ⟨hl, by simpa using hh, (hm (by omega)).1⟩

/-!
## Flap detection
Embeds `FlapDetector.check_flapping`
(`src/agents/event_correlator/tools/flap_detector.py`).  Timestamps are
seconds as integers; the stored history list and the link's flap counter
(`count`, 0 when the Redis key is absent) are passed explicitly.  The result
is the returned pair (is_flapping, dampen_seconds) together with the counter
value after the call.
-/

def FLAP_WINDOW : Nat := 300

def FLAP_THRESHOLD : Nat := 3

def INITIAL_DAMPEN : Nat := 60

def MAX_DAMPEN : Nat := 3600

def recent_events (history : List Int) (now : Int) : List Int :=
  history.filter (fun t => now - (FLAP_WINDOW : Int) ≤ t)

def check_flapping (history : List Int) (now : Int) (count : Nat) :
    (Bool × Nat) × Nat :=
  if FLAP_THRESHOLD ≤ (recent_events history now).length then
    let flap_count := count + 1
    ((true, min (INITIAL_DAMPEN * 2 ^ (flap_count - 1)) MAX_DAMPEN), flap_count)
  else
    ((false, 0), count)

/-- C6: the check reports flapping exactly when at least three recorded state
changes fall in the 300-second window ending now; when flapping, the counter
is incremented and the dampen time is min(60·2^(new count − 1), 3600), so the
n-th flap occurrence yields 60, 120, 240, … capped at 3600; when not
flapping, the counter is untouched and the dampen time is 0. -/
theorem c6_flap_check (history : List Int) (now : Int) (count : Nat) :
    ((check_flapping history now count).1.1 = true ↔
      FLAP_THRESHOLD ≤ (history.filter (fun t => now - 300 ≤ t)).length) ∧
    ((check_flapping history now count).1.1 = true →
      (check_flapping history now count).2 = count + 1 ∧
      (check_flapping history now count).1.2
        = min (INITIAL_DAMPEN * 2 ^ count) MAX_DAMPEN) ∧
    ((check_flapping history now count).1.1 = false →
      (check_flapping history now count).2 = count ∧
      (check_flapping history now count).1.2 = 0) := by
  have hre : recent_events history now
      = history.filter (fun t => now - 300 ≤ t) := rfl
  rw [← hre]
  unfold check_flapping
  by_cases h : FLAP_THRESHOLD ≤ (recent_events history now).length
  · rw [if_pos h]
    refine ⟨⟨fun _ => h, fun _ => rfl⟩, fun _ => ⟨rfl, by simp⟩,
      fun ht => absurd ht (by simp)⟩
  · rw [if_neg h]
    exact ⟨⟨fun ht => absurd ht (by simp), fun hc => absurd hc h⟩,
      fun ht => absurd ht (by simp), fun _ => ⟨rfl, rfl⟩⟩

/-- Witness for C6 on the spec's concrete run: three state changes at t,
t+10 s and t+20 s, checked at t+25 s (t = 975): flapping, dampen 60 s,
counter moves from 0 to 1. -/
theorem c6_flap_check_witness :
    check_flapping [995, 985, 975] 1000 0 = ((true, 60), 1) := by
  obtain ⟨hiff, hflap, -⟩ := c6_flap_check [995, 985, 975] 1000 0
  have ht : (check_flapping [995, 985, 975] 1000 0).1.1 = true :=
    hiff.mpr (by decide)
  obtain ⟨hc, hd⟩ := hflap ht
  have h1 : (check_flapping [995, 985, 975] 1000 0).1
      = (true, 60) := by
    rw [Prod.ext_iff]
    refine ⟨ht, ?_⟩
    rw [hd]
    decide
  rw [Prod.ext_iff]
  exact ⟨h1, hc⟩

/-!
## PCA alert normalization
Embeds the severity computation of `_normalize_pca_alert`
(`src/agents/event_correlator/nodes/ingest_node.py`).  The raw payload's
`current_value` and `threshold_value` are optional rationals; a missing field
defaults to 0 (`raw.get(..., 0)`), and the ratio is computed by division only
when the threshold is strictly positive, else it defaults to 1.
-/

def ratio_pca (current_value threshold_value : Option ℚ) : ℚ :=
  let c := current_value.getD 0
  let t := threshold_value.getD 0
  if 0 < t then c / t else 1

def severity_pca (current_value threshold_value : Option ℚ) : String :=
  let ratio := ratio_pca current_value threshold_value
  if 2 ≤ ratio then "critical"
  else if (3 : ℚ) / 2 ≤ ratio then "major"
  else if (6 : ℚ) / 5 ≤ ratio then "minor"
  else "warning"

/-- C10: whenever the threshold value is absent, zero or negative, the guard
keeps the division from being taken, the ratio defaults to 1, and the
normalized severity is "warning", for every current value. -/
theorem c10_pca_normalization_total (current_value threshold_value : Option ℚ)
    (h : (threshold_value.getD 0) ≤ 0) :
    ratio_pca current_value threshold_value = 1 ∧
    severity_pca current_value threshold_value = "warning" := by
  have hr : ratio_pca current_value threshold_value = 1 := by
    unfold ratio_pca
    simp [not_lt.mpr h]
  refine ⟨hr, ?_⟩
  unfold severity_pca
  rw [hr]
  norm_num

/-- Witness for C10: a PCA alert carrying current_value 42 and no
threshold_value normalizes to severity "warning" with ratio 1. -/
theorem c10_pca_normalization_total_witness :
    ratio_pca (some 42) none = 1 ∧ severity_pca (some 42) none = "warning" :=
  c10_pca_normalization_total (some 42) none (by norm_num)

/-!
## A2A task server
Embeds the POST /a2a/tasks handler `execute_task`
(`src/agent_template/api/server.py`, `A2ATaskServer._register_routes`).  The
in-process `self._tasks` map is a key/value list; the workflow executor is a
function of the number of executions performed so far (its result may differ
between runs); the handler body runs the executor unconditionally — it never
consults `_tasks` before executing — and overwrites the stored record.
-/

structure SrvState where
  tasks : List (String × Nat)
  executions : List String
deriving Repr, DecidableEq

def storePut (m : List (String × Nat)) (k : String) (v : Nat) :
    List (String × Nat) :=
  (k, v) :: m.filter (fun kv => kv.1 ≠ k)

def execute_task (runWorkflow : Nat → Nat) (s : SrvState) (task_id : String) :
    Nat × SrvState :=
  let result := runWorkflow s.executions.length
  (result,
    { tasks := storePut s.tasks task_id result,
      executions := s.executions ++ [task_id] })

/-- C7: posting the same task-ID a second time after the first call completed
re-runs the workflow (the execution log grows to two entries for "task-1")
and returns the second execution's result, not the cached first result. -/
theorem c7_repost_reexecutes_workflow :
    (execute_task (fun n => n)
        (execute_task (fun n => n) { tasks := [], executions := [] } "task-1").2
        "task-1").2.executions = ["task-1", "task-1"] ∧
    (execute_task (fun n => n) { tasks := [], executions := [] } "task-1").1
      = 0 ∧
    (execute_task (fun n => n)
        (execute_task (fun n => n) { tasks := [], executions := [] } "task-1").2
        "task-1").1 = 1 ∧
    (execute_task (fun n => n)
        (execute_task (fun n => n) { tasks := [], executions := [] } "task-1").2
        "task-1").1
      ≠ (execute_task (fun n => n) { tasks := [], executions := [] } "task-1").1 := by
  decide

/-!
## A2A client retry
Embeds `A2AClient.send_task` (`src/agent_template/tools/a2a_client/client.py`).
The tenacity decorator re-invokes the whole function body on
`httpx.TimeoutException` / `httpx.ConnectError`, up to `stop_after_attempt(3)`
attempts; the body builds a fresh `TaskInput` whose `task_id` is `uuid4()`.
The UUID source is modelled as a fresh-value generator threaded through the
attempts: state `g` mints value `g` and moves to `g + 1`, so successive mints
never collide.  `transport_err k` tells whether attempt number `k` dies with
a transport error (and is hence retried).
-/

def mint_uuid (g : Nat) : Nat × Nat := (g, g + 1)

def send_task_attempts (transport_err : Nat → Bool) (g : Nat) (attempt : Nat) :
    Nat → List Nat
  | 0 => []
  | fuel + 1 =>
    let m := mint_uuid g
    if transport_err attempt then
      m.1 :: send_task_attempts transport_err m.2 (attempt + 1) fuel
    else
      [m.1]

/-- The task-IDs used by the up-to-three attempts of one `send_task` call. -/
def send_task_ids (transport_err : Nat → Bool) (g : Nat) : List Nat :=
  send_task_attempts transport_err g 0 3

theorem send_task_attempts_lower_bound (transport_err : Nat → Bool) :
    ∀ fuel g attempt x, x ∈ send_task_attempts transport_err g attempt fuel →
      g ≤ x := by
  intro fuel
  induction fuel with
  | zero => intro g attempt x hx; simp [send_task_attempts] at hx
  | succ fuel ih =>
    intro g attempt x hx
    unfold send_task_attempts at hx
    simp only [mint_uuid] at hx
    by_cases he : transport_err attempt
    · rw [if_pos he] at hx
      rcases List.mem_cons.mp hx with h | h
      · omega
      · have := ih (g + 1) (attempt + 1) x h
        omega
    · rw [if_neg he] at hx
      simp at hx
      omega

theorem send_task_attempts_nodup (transport_err : Nat → Bool) :
    ∀ fuel g attempt,
      (send_task_attempts transport_err g attempt fuel).Nodup := by
  intro fuel
  induction fuel with
  | zero => intro g attempt; simp [send_task_attempts]
  | succ fuel ih =>
    intro g attempt
    unfold send_task_attempts
    simp only [mint_uuid]
    by_cases he : transport_err attempt
    · rw [if_pos he]
      refine List.nodup_cons.mpr ⟨fun hmem => ?_, ih (g + 1) (attempt + 1)⟩
      have := send_task_attempts_lower_bound transport_err fuel
        (g + 1) (attempt + 1) g hmem
      omega
    · rw [if_neg he]
      simp

/-- C9: for every pattern of transport errors and every generator state, the
attempts of one retried `send_task` call never share a task-ID: the ID mint
sits inside the retried body, so every retry builds a fresh `TaskInput`. -/
theorem c9_retry_mints_fresh_task_ids (transport_err : Nat → Bool) (g : Nat) :
    (send_task_ids transport_err g).Nodup :=
  send_task_attempts_nodup transport_err 3 g 0

/-- Witness for C9: with the first two attempts failing on transport errors,
three task-IDs are minted and they are pairwise distinct. -/
theorem c9_retry_mints_fresh_task_ids_witness :
    (send_task_ids (fun k => decide (k < 2)) 7).Nodup ∧
    send_task_ids (fun k => decide (k < 2)) 7 = [7, 8, 9] :=
  ⟨c9_retry_mints_fresh_task_ids (fun k => decide (k < 2)) 7, by decide⟩

/-!
## Orchestrator terminal-state emissions
Embeds the LangGraph state machine built in
`src/agents/orchestrator/workflow.py` (`OrchestratorWorkflow.build_graph`)
together with the `send_notification` / `log_event` A2A tasks emitted by the
nodes (`steer_node.py`, `restore_node.py`, `escalate_node.py`,
`close_node.py`; the other nodes emit neither task type).  A `Run a l` is an
execution of the graph from node `a` through the successor list `l`,
terminating at the graph's END vertex (`endN`); the conditional-edge
functions in `nodes/conditions.py` are abstracted into the edge relation.
Emissions are attached to the traversed edge because the emitting branch of
`steer_node` (tunnel present) is exactly the one routed to `monitor`, and the
emitting branch of `restore_node` (cutover complete) exactly the one routed
to `close`; `escalate_node` and `close_node` emit unconditionally.  Event
type strings become an enumeration.
-/

inductive ONode where
  | start | detect | assess | compute | provision | steer
  | monitor | restore | dampen | escalate | close | endN
deriving DecidableEq, Repr

inductive EventType where
  | incident_closed | incident_escalated | protection_activated
  | restoration_complete | traffic_steered
deriving DecidableEq, Repr

/-- Edges of `build_graph`: `add_edge` plus every target of the
`add_conditional_edges` maps. -/
def edge : ONode → ONode → Bool
  | .start, .detect => true
  | .detect, .assess => true
  | .detect, .dampen => true
  | .assess, .compute => true
  | .assess, .close => true
  | .compute, .provision => true
  | .compute, .escalate => true
  | .provision, .steer => true
  | .provision, .provision => true
  | .provision, .escalate => true
  | .steer, .monitor => true
  | .steer, .provision => true
  | .monitor, .restore => true
  | .monitor, .monitor => true
  | .restore, .close => true
  | .restore, .restore => true
  | .dampen, .detect => true
  | .escalate, .close => true
  | .close, .endN => true
  | _, _ => false

/-- A terminating graph execution: from `a`, follow edges through `l`,
stopping only at END. -/
inductive Run : ONode → List ONode → Prop where
  | stop : Run ONode.endN []
  | step {a b : ONode} {l : List ONode} (hab : edge a b = true)
      (hr : Run b l) : Run a (b :: l)

/-- `send_notification` event types emitted while executing node `a` whose
chosen transition is to `b`. -/
def notif_events_step : ONode → ONode → List EventType
  | .steer, .monitor => [.protection_activated]
  | .restore, .close => [.restoration_complete]
  | .escalate, _ => [.incident_escalated]
  | .close, _ => [.incident_closed]
  | _, _ => []

/-- `log_event` event types emitted while executing node `a` whose chosen
transition is to `b`. -/
def audit_events_step : ONode → ONode → List EventType
  | .steer, .monitor => [.traffic_steered]
  | .restore, .close => [.restoration_complete]
  | .escalate, _ => [.incident_escalated]
  | .close, _ => [.incident_closed]
  | _, _ => []

def trace_notifs : ONode → List ONode → List EventType
  | _, [] => []
  | a, b :: l => notif_events_step a b ++ trace_notifs b l

def trace_audits : ONode → List ONode → List EventType
  | _, [] => []
  | a, b :: l => audit_events_step a b ++ trace_audits b l

theorem run_endN_nil {l : List ONode} (h : Run ONode.endN l) : l = [] := by
  cases h with
  | stop => rfl
  | step hab hr => cases hab.symm.trans (by rfl)

theorem run_from_close {l : List ONode} (h : Run ONode.close l) :
    l = [ONode.endN] := by
  cases h with
  | step hab hr =>
    rename_i b l2
    cases b <;> simp [edge] at hab
    rw [run_endN_nil hr]

theorem run_count_closed {a : ONode} {l : List ONode} (h : Run a l) :
    (trace_notifs a l).count EventType.incident_closed
      = if a = ONode.endN then 0 else 1 := by
  induction h with
  | stop => simp [trace_notifs]
  | step hab hr ih =>
    rename_i a b l2
    simp only [trace_notifs, List.count_append]
    cases a <;> cases b <;>
      simp_all [edge, notif_events_step, List.count_cons]

theorem run_count_escalated {a : ONode} {l : List ONode} (h : Run a l) :
    (trace_notifs a l).count EventType.incident_escalated ≤ 1 ∧
    (ONode.escalate ∈ a :: l →
      (trace_notifs a l).count EventType.incident_escalated = 1) ∧
    (ONode.escalate ∉ a :: l →
      (trace_notifs a l).count EventType.incident_escalated = 0) := by
  induction h with
  | stop =>
    refine ⟨by simp [trace_notifs], fun hmem => ?_, fun _ => by simp [trace_notifs]⟩
    simp at hmem
  | step hab hr ih =>
    rename_i a b l2
    by_cases hae : a = ONode.escalate
    · subst hae
      have hb : b = ONode.close := by
        cases b <;> simp [edge] at hab
        rfl
      subst hb
      have hl2 := run_from_close hr
      subst hl2
      exact ⟨by decide, fun _ => by decide, fun hnot =>
        absurd (List.mem_cons_self _ _) hnot⟩
    · have h0 : (notif_events_step a b).count EventType.incident_escalated
          = 0 := by
        cases a <;> cases b <;> simp_all [notif_events_step]
      simp only [trace_notifs, List.count_append, h0, Nat.zero_add]
      refine ⟨ih.1, fun hmem => ?_, fun hnot => ?_⟩
      · rcases List.mem_cons.mp hmem with h | h
        · exact absurd h.symm hae
        · exact ih.2.1 h
      · exact ih.2.2 fun hmem2 => hnot (List.mem_cons_of_mem a hmem2)

theorem trace_audits_count_eq (e : EventType)
    (he : e = EventType.incident_closed ∨ e = EventType.incident_escalated) :
    ∀ (a : ONode) (l : List ONode),
      (trace_audits a l).count e = (trace_notifs a l).count e := by
  intro a l
  induction l generalizing a with
  | nil => rfl
  | cons b l2 ih =>
    have hstep : (audit_events_step a b).count e
        = (notif_events_step a b).count e := by
      rcases he with rfl | rfl <;> cases a <;> cases b <;> decide
    simp only [trace_audits, trace_notifs, List.count_append, hstep, ih]

theorem count_pair_le_length {α : Type} [DecidableEq α] (a b : α) (hab : a ≠ b) :
    ∀ l : List α, l.count a + l.count b ≤ l.length := by
  intro l
  induction l with
  | nil => simp
  | cons x xs ih =>
    rw [List.count_cons, List.count_cons, List.length_cons]
    have h1 : (if (x == a) = true then 1 else 0)
        + (if (x == b) = true then 1 else 0) ≤ 1 := by
      by_cases hxa : x = a <;> by_cases hxb : x = b
      · exact absurd (hxa.symm.trans hxb) hab
      · simp [hxa, hxb, hab]
      · simp [hxa, hxb, Ne.symm hab]
      · simp [hxa, hxb]
    omega

/-- C8 amended: every terminating orchestrator run emits exactly one
closure notification and one closure audit event (event type
incident_closed); an escalated run additionally emits exactly one
incident-escalated notification and audit event, so at least two
send_notification and two log_event tasks in total, while a run that never
escalates emits no incident-escalated task. -/
theorem c8_terminal_run_emissions (l : List ONode)
    (h : Run ONode.start l) :
    (trace_notifs ONode.start l).count EventType.incident_closed = 1 ∧
    (trace_audits ONode.start l).count EventType.incident_closed = 1 ∧
    (ONode.escalate ∈ l →
      (trace_notifs ONode.start l).count EventType.incident_escalated = 1 ∧
      (trace_audits ONode.start l).count EventType.incident_escalated = 1 ∧
      2 ≤ (trace_notifs ONode.start l).length ∧
      2 ≤ (trace_audits ONode.start l).length) ∧
    (ONode.escalate ∉ l →
      (trace_notifs ONode.start l).count EventType.incident_escalated = 0 ∧
      (trace_audits ONode.start l).count EventType.incident_escalated = 0) := by
  have hclosed := run_count_closed h
  rw [if_neg (by decide)] at hclosed
  have hesc := run_count_escalated h
  have haudc := trace_audits_count_eq EventType.incident_closed
    (Or.inl rfl) ONode.start l
  have haude := trace_audits_count_eq EventType.incident_escalated
    (Or.inr rfl) ONode.start l
  refine ⟨hclosed, haudc.trans hclosed, fun hmem => ?_, fun hnot => ?_⟩
  · have h1 := hesc.2.1 (List.mem_cons_of_mem _ hmem)
    have hlen := count_pair_le_length EventType.incident_closed
      EventType.incident_escalated (by decide) (trace_notifs ONode.start l)
    have hlena := count_pair_le_length EventType.incident_closed
      EventType.incident_escalated (by decide) (trace_audits ONode.start l)
    rw [hclosed, h1] at hlen
    rw [haudc.trans hclosed, haude.trans h1] at hlena
    exact ⟨h1, haude.trans h1, hlen, hlena⟩
  · have hnot2 : ONode.escalate ∉ ONode.start :: l := by
      intro hmem
      rcases List.mem_cons.mp hmem with h2 | h2
      · exact absurd h2 (by decide)
      · exact hnot h2
    have h0 := hesc.2.2 hnot2
    exact ⟨h0, haude.trans h0⟩

/-- The escalated execution of the counterexample: a computed-path failure
escalates, then closes. -/
def c8_escalated_trace : List ONode :=
  [ONode.detect, ONode.assess, ONode.compute, ONode.escalate, ONode.close,
   ONode.endN]

/-- C8 counterexample: the escalated run detect → assess → compute →
escalate → close is a valid terminal run of the orchestrator graph and emits
two send_notification tasks and two log_event tasks (one pair from
escalate_node, one pair from close_node), not exactly one of each. -/
theorem c8_counterexample_escalated_run_emits_two :
    Run ONode.start c8_escalated_trace ∧
    (trace_notifs ONode.start c8_escalated_trace).length = 2 ∧
    (trace_audits ONode.start c8_escalated_trace).length = 2 ∧
    ¬ (trace_notifs ONode.start c8_escalated_trace).length = 1 := by
  refine ⟨?_, by decide, by decide, by decide⟩
  exact Run.step (by decide) (Run.step (by decide) (Run.step (by decide)
    (Run.step (by decide) (Run.step (by decide) (Run.step (by decide)
      Run.stop)))))

/-- The no-impact execution used as witness: assess finds no affected
services and the run closes directly. -/
def c8_noimpact_trace : List ONode :=
  [ONode.detect, ONode.assess, ONode.close, ONode.endN]

/-- Witness for C8 amended on the no-impact run: exactly one closure
notification and one closure audit event, and no escalation task. -/
theorem c8_terminal_run_emissions_witness :
    (trace_notifs ONode.start c8_noimpact_trace).count
      EventType.incident_closed = 1 ∧
    (trace_audits ONode.start c8_noimpact_trace).count
      EventType.incident_closed = 1 ∧
    (trace_notifs ONode.start c8_noimpact_trace).count
      EventType.incident_escalated = 0 := by
  have hrun : Run ONode.start c8_noimpact_trace :=
    Run.step (by decide) (Run.step (by decide) (Run.step (by decide)
      (Run.step (by decide) Run.stop)))
  obtain ⟨h1, h2, -, h4⟩ := c8_terminal_run_emissions c8_noimpact_trace hrun
  exact ⟨h1, h2, (h4 (by decide)).1⟩
